import Mathlib

/-!
Shallow embedding of the Trade_4U one-trade-per-day backtesting engine
(`src/indicators.py`, `src/strategy.py`, `src/backtester.py`).

Conventions of the embedding:
* Prices, volumes and money amounts are exact rationals (`ℚ`) standing for the
  source's floats; none of the verified claims depends on rounding.
* Timestamps are natural numbers counting minutes (UTC); a calendar day is a
  block of 1440 minutes, `t % 1440` is the time of day and `t % 1440 / 60` the
  hour, matching the source's use of `datetime.hour` and `.time()` comparisons.
* A pandas value that can be NaN (an indicator evaluated with insufficient
  history, a division whose denominator is zero) is modelled as `Option ℚ`,
  `none` playing the role of NaN: every comparison against `none` is false,
  exactly as float comparisons against NaN are false in the source.  A float
  division of a nonzero numerator by zero produces an infinity in the source;
  no code path exercised here divides by zero, and the embedding maps that case
  to `none` as well.
* `DataFrame` candle windows become `List Candle` ordered by time; `.iloc[-1]`
  becomes `List.getLast?`, and an access that would raise on an empty frame is
  modelled by the enclosing `try/except` translation: the function returns its
  no-signal value, as the source's exception handler does.
-/

namespace Trade4U

/-- OHLCV candle: one row of the source's DataFrames.  `op` is the `open`
column (`open` is a Lean keyword). -/
structure Candle where
  time : ℕ
  op : ℚ
  high : ℚ
  low : ℚ
  close : ℚ
  volume : ℚ
deriving DecidableEq, Repr

/-- Trade direction, the source's `'long'` / `'short'` strings. -/
inductive Side where
  | long
  | short
deriving DecidableEq, Repr

/-- Strategy tag of a signal, the source's `'orb'` / `'ema15_pullback'`. -/
inductive StratTag where
  | orb
  | ema15_pullback
deriving DecidableEq, Repr

/-- The configured fallback mode (`config['fallback_mode']`). -/
inductive FallbackMode where
  | ORB
  | EMA15_pullback
  | BestOfBoth
deriving DecidableEq, Repr

/-- Result kind of `engulfing_pattern` (`'bullish'`, `'bearish'`, `'none'`). -/
inductive EngulfKind where
  | bullish
  | bearish
  | noneKind
deriving DecidableEq, Repr

/-- Macro bias classification of `get_macro_bias`. -/
inductive MacroBias where
  | long
  | short
  | neutral
deriving DecidableEq, Repr

/-- Exit reasons produced by `should_exit_trade` and the day-end forced close. -/
inductive ExitReason where
  | session_end
  | stop_loss
  | take_profit
  | break_even
deriving DecidableEq, Repr

/-- Minute-of-day of a timestamp. -/
def timeOfDay (t : ℕ) : ℕ := t % 1440

/-- Hour of a timestamp (the source's `datetime.hour`). -/
def hourOfTime (t : ℕ) : ℕ := t % 1440 / 60

/-- Start of the calendar day containing a timestamp. -/
def dayStart (t : ℕ) : ℕ := t / 1440 * 1440

/-- Closing prices of a candle window. -/
def closes (data : List Candle) : List ℚ := data.map fun c => c.close

/-- All-or-nothing sequencing of possibly-NaN values: `some` of the list of
values when no entry is NaN, else `none`. -/
def seqSome : List (Option ℚ) → Option (List ℚ)
  | [] => some []
  | none :: _ => none
  | some v :: rest => (seqSome rest).map fun vs => v :: vs

/-- Rolling mean with window `w` and `min_periods = w` (the pandas default for
an integer window): entry `i` is the mean of entries `i+1-w .. i`, and is NaN
while fewer than `w` rows exist or the window contains a NaN. -/
def rollingMeanO (w : ℕ) (xs : List (Option ℚ)) : List (Option ℚ) :=
  (List.range xs.length).map fun i =>
    if i + 1 < w then none
    else
      match seqSome ((xs.drop (i + 1 - w)).take w) with
      | some vs => some (vs.sum / w)
      | none => none

/-- First difference of a series (`Series.diff()`): NaN at index 0. -/
def diffs (xs : List ℚ) : List (Option ℚ) :=
  match xs with
  | [] => []
  | _ :: _ => none :: ((xs.tail.zip xs).map fun p => some (p.1 - p.2))

/-- Tail of `ewm(span, adjust=False).mean()`: `y_i = (1-α)·y_{i-1} + α·x_i`. -/
def emaFrom (a y : ℚ) : List ℚ → List ℚ
  | [] => []
  | x :: xs =>
    let y2 := (1 - a) * y + a * x
    y2 :: emaFrom a y2 xs

/-- Exponential moving average series over closing prices, smoothing factor
`α = 2/(span+1)`, seeded by the first observation (`ema` in the source,
`adjust=False`). -/
def emaList (xs : List ℚ) (span : ℕ) : List ℚ :=
  match xs with
  | [] => []
  | x :: rest => x :: emaFrom (2 / (span + 1)) x rest

/-- Last value of the EMA series of a candle window (`ema(data, n).iloc[-1]`). -/
def emaLast (data : List Candle) (span : ℕ) : Option ℚ :=
  (emaList (closes data) span).getLast?

/-- True-range series (`true_range` in the source): for fewer than two rows it
degenerates to `high - low`; otherwise row `i` is
`max (high-low) (max |high-prevClose| |low-prevClose|)`, NaN at row 0 because
the shifted close is NaN there and `np.maximum` propagates NaN. -/
def trueRangeSeries (data : List Candle) : List (Option ℚ) :=
  match data with
  | [] => []
  | [c] => [some (c.high - c.low)]
  | _ =>
    (data.zip (none :: data.map some)).map fun p =>
      match p.2 with
      | none => none
      | some prev =>
        some (max (p.1.high - p.1.low) (max |p.1.high - prev.close| |p.1.low - prev.close|))

/-- Average True Range series: rolling mean of the true range
(`atr` in the source, `min_periods = period`). -/
def atrSeries (data : List Candle) (period : ℕ) : List (Option ℚ) :=
  rollingMeanO period (trueRangeSeries data)

/-- Last ATR value (`atr(data, period).iloc[-1]`). -/
def atrLast (data : List Candle) (period : ℕ) : Option ℚ :=
  Option.join (atrSeries data period).getLast?

/-- Positive directional movement of one row (`np.where` row of `adx`): the
up-move when it beats the down-move and is positive, else 0; rows whose diff is
NaN (index 0) compare false and give 0. -/
def dmPlusVal (dh dl : Option ℚ) : ℚ :=
  match dh, dl with
  | some x, some y => if |y| < x ∧ 0 < x then x else 0
  | _, _ => 0

/-- Negative directional movement of one row, symmetric to `dmPlusVal`. -/
def dmMinusVal (dh dl : Option ℚ) : ℚ :=
  match dh, dl with
  | some x, some y => if x < |y| ∧ y < 0 then |y| else 0
  | _, _ => 0

/-- Scaled NaN-propagating quotient `100·a/b` used for the directional
indicators; a zero denominator (a 0/0 or x/0 in the float source) is mapped to
NaN. -/
def di100 (a b : Option ℚ) : Option ℚ :=
  match a, b with
  | some x, some y => if y = 0 then none else some (100 * x / y)
  | _, _ => none

/-- Average Directional Index series (`adx` in the source): smoothed ±DM over
smoothed TR, `dx = 100·|DI+ - DI-|/(DI+ + DI-)`, then a rolling mean of `dx`. -/
def adxSeries (data : List Candle) (period : ℕ) : List (Option ℚ) :=
  let tr := trueRangeSeries data
  let dh := diffs (data.map fun c => c.high)
  let dl := diffs (data.map fun c => c.low)
  let dmp : List (Option ℚ) := (dh.zip dl).map fun p => some (dmPlusVal p.1 p.2)
  let dmm : List (Option ℚ) := (dh.zip dl).map fun p => some (dmMinusVal p.1 p.2)
  let atrSmooth := rollingMeanO period tr
  let dmpSmooth := rollingMeanO period dmp
  let dmmSmooth := rollingMeanO period dmm
  let diPlus := (dmpSmooth.zip atrSmooth).map fun p => di100 p.1 p.2
  let diMinus := (dmmSmooth.zip atrSmooth).map fun p => di100 p.1 p.2
  let dx := (diPlus.zip diMinus).map fun p =>
    match p.1, p.2 with
    | some dp, some dm => if dp + dm = 0 then none else some (100 * |dp - dm| / (dp + dm))
    | _, _ => none
  rollingMeanO period dx

/-- Last ADX value (`adx(data, period).iloc[-1]`). -/
def adxLast (data : List Candle) (period : ℕ) : Option ℚ :=
  Option.join (adxSeries data period).getLast?

/-- Last VWAP value (`vwap(data).iloc[-1]`): ratio of the cumulative
typical-price·volume to the cumulative volume over the whole window; an
all-zero volume window (a float 0/0) is NaN. -/
def vwapLast (data : List Candle) : Option ℚ :=
  let tpv := (data.map fun c => (c.high + c.low + c.close) / 3 * c.volume).sum
  let v := (data.map fun c => c.volume).sum
  if v = 0 then none else some (tpv / v)

/-- Opening-range high (`opening_range_high`): max of `high` over rows whose
time of day lies in the inclusive window; NaN when no row matches. -/
def opening_range_high (data : List Candle) (startT endT : ℕ) : Option ℚ :=
  let xs := data.filter fun c =>
    decide (timeOfDay startT ≤ timeOfDay c.time) && decide (timeOfDay c.time ≤ timeOfDay endT)
  (xs.map fun c => c.high).max?

/-- Opening-range low (`opening_range_low`), symmetric to the high. -/
def opening_range_low (data : List Candle) (startT endT : ℕ) : Option ℚ :=
  let xs := data.filter fun c =>
    decide (timeOfDay startT ≤ timeOfDay c.time) && decide (timeOfDay c.time ≤ timeOfDay endT)
  (xs.map fun c => c.low).min?

/-- Breakout test (`opening_range_breakout`): the latest close beyond the
range boundary of the requested side. -/
def opening_range_breakout (data : List Candle) (orbHigh orbLow : ℚ) (side : Side) : Bool :=
  match data.getLast? with
  | none => false
  | some c =>
    match side with
    | Side.long => decide (orbHigh < c.close)
    | Side.short => decide (c.close < orbLow)

/-- Engulfing-pattern classifier over the last two candles
(`engulfing_pattern`); fewer than two rows give `(false, none)`. -/
def engulfing_pattern (data : List Candle) : Bool × EngulfKind :=
  match data.dropLast.getLast?, data.getLast? with
  | some prev, some cur =>
    if cur.op < cur.close ∧ prev.close < prev.op ∧ cur.op < prev.close ∧ prev.op < cur.close then
      (true, EngulfKind.bullish)
    else if cur.close < cur.op ∧ prev.op < prev.close ∧ prev.close < cur.op ∧ cur.close < prev.op then
      (true, EngulfKind.bearish)
    else (false, EngulfKind.noneKind)
  | _, _ => (false, EngulfKind.noneKind)

/-- Volume confirmation (`volume_confirmation`): the latest volume strictly
above the `period`-bar SMA of volume; false when fewer than `period` rows. -/
def volume_confirmation (data : List Candle) (period : ℕ) : Bool :=
  if data.length < period then false
  else
    match data.getLast? with
    | none => false
    | some c =>
      let vols := data.map fun k => k.volume
      let smaLastVal := ((vols.drop (data.length - period)).take period).sum / period
      decide (smaLastVal < c.volume)

/-- R-multiple of a trade (`calculate_r_multiple`), embedded with the source's
winning/losing branching kept verbatim (both arms of each side are the same
expression). -/
def calculate_r_multiple (entry_price exit_price stop_loss : ℚ) (side : Side) : ℚ :=
  match side with
  | Side.long =>
    if entry_price < exit_price then
      (exit_price - entry_price) / (entry_price - stop_loss)
    else
      (exit_price - entry_price) / (entry_price - stop_loss)
  | Side.short =>
    if exit_price < entry_price then
      (entry_price - exit_price) / (stop_loss - entry_price)
    else
      (entry_price - exit_price) / (stop_loss - entry_price)

/-- Macro bias over the higher timeframe (`get_macro_bias`): needs 200 bars,
then compares the last close and EMA50 with EMA200. -/
def get_macro_bias (htf : List Candle) : MacroBias :=
  if htf.length < 200 then MacroBias.neutral
  else
    match (emaList (closes htf) 200).getLast?, (emaList (closes htf) 50).getLast?,
      htf.getLast? with
    | some e200, some e50, some c =>
      if e200 < c.close ∧ e200 < e50 then MacroBias.long
      else if c.close < e200 ∧ e50 < e200 then MacroBias.short
      else MacroBias.neutral
    | _, _, _ => MacroBias.neutral

/-- Trading-session predicate (`is_trading_session`, default 11–17 UTC). -/
def is_trading_session (t : ℕ) : Bool :=
  decide (11 ≤ hourOfTime t) && decide (hourOfTime t < 17)

/-- Entry-window predicate (`is_entry_window`, default 11–13 UTC). -/
def is_entry_window (t : ℕ) : Bool :=
  decide (11 ≤ hourOfTime t) && decide (hourOfTime t < 13)

/-- ORB-window predicate (`is_orb_window`, default 11–12 UTC). -/
def is_orb_window (t : ℕ) : Bool :=
  decide (11 ≤ hourOfTime t) && decide (hourOfTime t < 12)

/-- Strategy configuration (the required keys of `config` read by
`TradingStrategy.__init__`; the session hours 11/12/13/17 are hard-coded in the
source and appear as literals below). -/
structure Config where
  risk_usdt : ℚ
  daily_target : ℚ
  daily_max_loss : ℚ
  force_one_trade : Bool
  fallback_mode : FallbackMode
  adx_min : ℚ
  min_rr_ok : ℚ
  atr_mult_orb : ℚ
  atr_mult_fallback : ℚ
  tp_multiplier : ℚ
deriving DecidableEq, Repr

/-- Mutable daily state of `TradingStrategy` (`daily_pnl`, `daily_trades`). -/
structure StratState where
  daily_pnl : ℚ
  daily_trades : ℕ
deriving DecidableEq, Repr

/-- The hard-coded daily trade cap (`self.max_daily_trades = 1`). -/
def max_daily_trades : ℕ := 1

/-- Fresh daily state (`reset_daily_state`). -/
def reset_daily_state : StratState := { daily_pnl := 0, daily_trades := 0 }

/-- Daily-target check (`is_daily_target_reached`). -/
def is_daily_target_reached (cfg : Config) (st : StratState) : Bool :=
  decide (cfg.daily_target ≤ st.daily_pnl)

/-- Daily-loss-limit check (`is_daily_loss_limit_reached`). -/
def is_daily_loss_limit_reached (cfg : Config) (st : StratState) : Bool :=
  decide (st.daily_pnl ≤ cfg.daily_max_loss)

/-- Gate for opening a new trade today (`can_trade_today`). -/
def can_trade_today (cfg : Config) (st : StratState) : Bool :=
  decide (st.daily_trades < max_daily_trades) &&
    !is_daily_target_reached cfg st && !is_daily_loss_limit_reached cfg st

/-- Position sizing (`calculate_position_size`): risk divided by the stop
distance, clamped by `risk/(entry·0.01)`; a zero stop distance sizes to 0 and a
NaN stop (`none`) propagates to a NaN size, which the caller's `> 0` test
rejects. -/
def calculate_position_size (cfg : Config) (entry_price : ℚ) (stop : Option ℚ) : Option ℚ :=
  match stop with
  | none => none
  | some sl =>
    let price_diff := |entry_price - sl|
    if price_diff = 0 then some 0
    else some (min (cfg.risk_usdt / price_diff) (cfg.risk_usdt / (entry_price * (1 / 100))))

/-- Stop-loss placement (`get_stop_loss_price`): entry ∓ ATR·multiplier, the
multiplier chosen by whether the signal is ORB or fallback; NaN ATR gives a
NaN stop. -/
def get_stop_loss_price (cfg : Config) (entry_price : ℚ) (side : Side) (atrVal : Option ℚ)
    (isOrb : Bool) : Option ℚ :=
  let atrMult := if isOrb then cfg.atr_mult_orb else cfg.atr_mult_fallback
  atrVal.map fun a =>
    match side with
    | Side.long => entry_price - a * atrMult
    | Side.short => entry_price + a * atrMult

/-- Take-profit placement (`get_take_profit_price`): entry ± risk·tp_multiplier
where risk is the absolute entry-to-stop distance. -/
def get_take_profit_price (cfg : Config) (entry_price : ℚ) (stop : Option ℚ)
    (side : Side) : Option ℚ :=
  stop.map fun sl =>
    let risk := |entry_price - sl|
    let reward := risk * cfg.tp_multiplier
    match side with
    | Side.long => entry_price + reward
    | Side.short => entry_price - reward

/-- Parameter bundle returned by a successful `check_orb_conditions`. -/
structure OrbParams where
  entry_price : ℚ
  stop_loss : Option ℚ
  take_profit : Option ℚ
  atr_value : Option ℚ
  adx_value : Option ℚ
  vwap_value : Option ℚ
deriving DecidableEq, Repr

/-- Parameter bundle returned by a successful
`check_ema15_pullback_conditions`. -/
structure EmaParams where
  entry_price : ℚ
  stop_loss : Option ℚ
  take_profit : Option ℚ
  atr_value : Option ℚ
  rr_value : ℚ
  ema15 : ℚ
deriving DecidableEq, Repr

/-- Comparison `threshold ≤ value` against a possibly-NaN value; false on NaN,
like the float comparison in the source. -/
def oGe (v : Option ℚ) (threshold : ℚ) : Bool :=
  match v with
  | some x => decide (threshold ≤ x)
  | none => false

/-- Opening-Range-Breakout entry check (`check_orb_conditions`).  Returns the
source's 4-tuple `(ok, orb_high, orb_low, trade_params)`.  An empty window
(whose `index[-1]` would raise) lands in the `except` branch and yields the
no-signal tuple. -/
def check_orb_conditions (cfg : Config) (ltf htf : List Candle) (side : Side) :
    Bool × Option ℚ × Option ℚ × Option OrbParams :=
  match ltf.getLast? with
  | none => (false, none, none, none)
  | some lastC =>
    let current_time := lastC.time
    if ¬ is_orb_window current_time = true then (false, none, none, none)
    else
      let orb_start_time := dayStart current_time + 11 * 60
      let orb_end_time := dayStart current_time + 12 * 60
      let orbHigh := opening_range_high ltf orb_start_time orb_end_time
      let orbLow := opening_range_low ltf orb_start_time orb_end_time
      match orbHigh, orbLow with
      | some oh, some ol =>
        if ¬ opening_range_breakout ltf oh ol side = true then (false, some oh, some ol, none)
        else
          let entry_price := lastC.close
          let atr_value := atrLast ltf 14
          let adx_value := adxLast ltf 14
          let vwap_value := vwapLast ltf
          let volume_ok := volume_confirmation ltf 20
          let adx_ok := oGe adx_value cfg.adx_min
          let _vwap_ok : Bool :=
            match side, vwap_value with
            | Side.long, some v => decide (v < entry_price)
            | Side.short, some v => decide (entry_price < v)
            | _, none => false
          if volume_ok = true ∧ adx_ok = true then
            let stop_loss := get_stop_loss_price cfg entry_price side atr_value true
            let take_profit := get_take_profit_price cfg entry_price stop_loss side
            (true, some oh, some ol,
              some { entry_price := entry_price, stop_loss := stop_loss,
                     take_profit := take_profit, atr_value := atr_value,
                     adx_value := adx_value, vwap_value := vwap_value })
          else (false, some oh, some ol, none)
      | _, _ => (false, none, none, none)

/-- EMA15-pullback fallback entry check (`check_ema15_pullback_conditions`):
pullback to EMA15 within tolerance, side-matching engulfing pattern, volume
confirmation, and reward/risk at least `min_rr_ok`.  A NaN risk or reward
yields `rr = 0`, as the source's `if risk > 0` guard does for a NaN risk. -/
def check_ema15_pullback_conditions (cfg : Config) (ltf htf : List Candle) (side : Side) :
    Option EmaParams :=
  if ltf.length < 15 then none
  else
    match emaLast ltf 15, ltf.getLast? with
    | some ema15, some lastC =>
      let current_price := lastC.close
      let eng := engulfing_pattern ltf
      let pullback_ok : Bool :=
        match side with
        | Side.long => decide (current_price ≤ ema15 * (1001 / 1000))
        | Side.short => decide (ema15 * (999 / 1000) ≤ current_price)
      let engulfing_ok : Bool :=
        match side with
        | Side.long => eng.1 && decide (eng.2 = EngulfKind.bullish)
        | Side.short => eng.1 && decide (eng.2 = EngulfKind.bearish)
      if ¬ (pullback_ok = true ∧ engulfing_ok = true) then none
      else if ¬ volume_confirmation ltf 20 = true then none
      else
        let entry_price := current_price
        let atr_value := atrLast ltf 14
        let stop_loss := get_stop_loss_price cfg entry_price side atr_value false
        let take_profit := get_take_profit_price cfg entry_price stop_loss side
        let risk := stop_loss.map fun sl => |entry_price - sl|
        let reward := take_profit.map fun tp => |tp - entry_price|
        let rr_value : ℚ :=
          match risk, reward with
          | some r, some w => if 0 < r then w / r else 0
          | _, _ => 0
        if cfg.min_rr_ok ≤ rr_value then
          some { entry_price := entry_price, stop_loss := stop_loss,
                 take_profit := take_profit, atr_value := atr_value,
                 rr_value := rr_value, ema15 := ema15 }
        else none
    | _, _ => none

/-- Entry signal handed to the backtester (the source's signal dict; fields the
producing strategy does not set are `none`). -/
structure TradeIntent where
  side : Side
  strategy : StratTag
  entry_price : ℚ
  stop_loss : Option ℚ
  take_profit : Option ℚ
  orb_high : Option ℚ
  orb_low : Option ℚ
  atr_value : Option ℚ
  adx_value : Option ℚ
  vwap_value : Option ℚ
  rr_value : Option ℚ
  ema15 : Option ℚ
deriving DecidableEq, Repr

/-- Signal dict built by `get_trade_signal` for an ORB hit. -/
def orbIntent (side : Side) (p : OrbParams) (oh ol : Option ℚ) : TradeIntent :=
  { side := side, strategy := StratTag.orb, entry_price := p.entry_price,
    stop_loss := p.stop_loss, take_profit := p.take_profit,
    orb_high := oh, orb_low := ol, atr_value := p.atr_value,
    adx_value := p.adx_value, vwap_value := p.vwap_value,
    rr_value := none, ema15 := none }

/-- Signal dict built by `get_trade_signal` for an EMA15-pullback hit. -/
def emaIntent (side : Side) (p : EmaParams) : TradeIntent :=
  { side := side, strategy := StratTag.ema15_pullback, entry_price := p.entry_price,
    stop_loss := p.stop_loss, take_profit := p.take_profit,
    orb_high := none, orb_low := none, atr_value := none,
    adx_value := none, vwap_value := none,
    rr_value := some p.rr_value, ema15 := some p.ema15 }

/-- Entry decision for the current timestamp (`get_trade_signal`): gate on
`can_trade_today` and the entry window, compute (and ignore) the macro bias,
try ORB long then short, then — only when `force_one_trade` holds and the hour
is at least 13 and the fallback mode permits — EMA15 pullback long then
short. -/
def get_trade_signal (cfg : Config) (st : StratState) (ltf htf : List Candle)
    (current_time : ℕ) : Option TradeIntent :=
  if ¬ can_trade_today cfg st = true then none
  else if ¬ is_entry_window current_time = true then none
  else
    let _macro_bias := get_macro_bias htf
    match check_orb_conditions cfg ltf htf Side.long with
    | (true, oh, ol, some p) => some (orbIntent Side.long p oh ol)
    | _ =>
      match check_orb_conditions cfg ltf htf Side.short with
      | (true, oh, ol, some p) => some (orbIntent Side.short p oh ol)
      | _ =>
        if cfg.force_one_trade = true ∧ 13 ≤ hourOfTime current_time then
          if cfg.fallback_mode = FallbackMode.EMA15_pullback ∨
              cfg.fallback_mode = FallbackMode.BestOfBoth then
            match check_ema15_pullback_conditions cfg ltf htf Side.long with
            | some p => some (emaIntent Side.long p)
            | none =>
              match check_ema15_pullback_conditions cfg ltf htf Side.short with
              | some p => some (emaIntent Side.short p)
              | none => none
          else none
        else none

/-- One open position of the backtester (the `current_trade` dict built in
`simulate_day`; `break_even_price` is initialized to the entry price with the
source comment "Will be updated when moved"). -/
structure OpenTrade where
  entry_time : ℕ
  side : Side
  entry_price : ℚ
  stop_loss : ℚ
  take_profit : ℚ
  position_size : ℚ
  strategy : StratTag
  break_even_price : ℚ
deriving DecidableEq, Repr

/-- Exit decision for an open trade (`should_exit_trade`): forced close at or
after hour 17 regardless of price, then stop-loss, take-profit and — only when
the break-even flag is passed — the break-even trigger, first match winning;
`none` when nothing fires.  (The source's `except` branch returning reason
`'error'` is unreachable in this total embedding.) -/
def should_exit_trade (trade : OpenTrade) (current_price : ℚ) (current_time : ℕ)
    (is_break_even : Bool) : Option (ExitReason × ℚ) :=
  if 17 ≤ hourOfTime current_time then some (ExitReason.session_end, current_price)
  else
    match trade.side with
    | Side.long =>
      if current_price ≤ trade.stop_loss then some (ExitReason.stop_loss, current_price)
      else if trade.take_profit ≤ current_price then some (ExitReason.take_profit, current_price)
      else if is_break_even = true ∧ trade.break_even_price ≤ current_price then
        some (ExitReason.break_even, current_price)
      else none
    | Side.short =>
      if trade.stop_loss ≤ current_price then some (ExitReason.stop_loss, current_price)
      else if current_price ≤ trade.take_profit then some (ExitReason.take_profit, current_price)
      else if is_break_even = true ∧ current_price ≤ trade.break_even_price then
        some (ExitReason.break_even, current_price)
      else none

/-- Realized PnL of a closed trade (`calculate_trade_pnl`); the exit reason is
accepted and ignored, as in the source. -/
def calculate_trade_pnl (trade : OpenTrade) (exit_price : ℚ) (reason : ExitReason) : ℚ :=
  match trade.side with
  | Side.long => (exit_price - trade.entry_price) * trade.position_size
  | Side.short => (trade.entry_price - exit_price) * trade.position_size

/-- Ledger entry appended by the backtester (`trade_record` dict; the
`day_key` date string becomes the day index). -/
structure TradeRecord where
  day_key : ℕ
  entry_time : ℕ
  side : Side
  entry_price : ℚ
  sl : ℚ
  tp : ℚ
  exit_time : ℕ
  exit_price : ℚ
  exit_reason : ExitReason
  pnl_usdt : ℚ
  position_size : ℚ
  strategy_used : StratTag
  used_fallback : Bool
deriving DecidableEq, Repr

/-- Record construction shared by the in-loop close and the day-end forced
close of `simulate_day`: every price field is read from the open trade at close
time (`sl` therefore reflects a break-even move). -/
def mkRecord (date : ℕ) (trade : OpenTrade) (exit_time : ℕ) (exit_price : ℚ)
    (reason : ExitReason) (pnl : ℚ) : TradeRecord :=
  { day_key := date, entry_time := trade.entry_time, side := trade.side,
    entry_price := trade.entry_price, sl := trade.stop_loss, tp := trade.take_profit,
    exit_time := exit_time, exit_price := exit_price, exit_reason := reason,
    pnl_usdt := pnl, position_size := trade.position_size,
    strategy_used := trade.strategy,
    used_fallback := decide (trade.strategy ≠ StratTag.orb) }

/-- Open-trade construction in `simulate_day` once a signal is sized: the
`break_even_price` field is seeded with the entry price ("Will be updated when
moved" — it never is).  The `getD 0` defaults are unreachable: this is only
called after the `position_size > 0` gate, which a NaN stop cannot pass. -/
def mkOpenTrade (sig : TradeIntent) (position_size : ℚ) (t : ℕ) : OpenTrade :=
  { entry_time := t, side := sig.side, entry_price := sig.entry_price,
    stop_loss := sig.stop_loss.getD 0, take_profit := sig.take_profit.getD 0,
    position_size := position_size, strategy := sig.strategy,
    break_even_price := sig.entry_price }

/-- Per-day simulation state: the strategy's daily counters, the single
open-trade slot, the break-even flag, this day's emitted records, and whether
the candle loop has been left early (`break`). -/
structure SimState where
  strat : StratState
  current_trade : Option OpenTrade
  break_even_moved : Bool
  trades : List TradeRecord
  stopped : Bool
deriving DecidableEq, Repr

/-- Initial state of a day's simulation (after `reset_daily_state`). -/
def initSimState : SimState :=
  { strat := reset_daily_state, current_trade := none, break_even_moved := false,
    trades := [], stopped := false }

/-- Exit block of the candle loop in `simulate_day`: if a trade is open, ask
`should_exit_trade` with the candle's close; on exit, record the trade (prices
read from the trade as of now), update the daily counters, clear the slot, and
leave the loop (`break`, modelled by `stopped`) when `can_trade_today` has
become false. -/
def exitStep (cfg : Config) (date : ℕ) (s : SimState) (c : Candle) : SimState :=
  match s.current_trade with
  | none => s
  | some trade =>
    match should_exit_trade trade c.close c.time s.break_even_moved with
    | none => s
    | some (reason, exit_price) =>
      let pnl := calculate_trade_pnl trade exit_price reason
      let strat2 : StratState :=
        { daily_pnl := s.strat.daily_pnl + pnl, daily_trades := s.strat.daily_trades + 1 }
      let s2 : SimState :=
        { strat := strat2, current_trade := none, break_even_moved := false,
          trades := s.trades ++ [mkRecord date trade c.time exit_price reason pnl],
          stopped := s.stopped }
      if can_trade_today cfg strat2 = true then s2 else { s2 with stopped := true }

/-- Entry block of the candle loop: with no open trade and `can_trade_today`,
build the LTF prefix, skip when shorter than 50 rows, otherwise ask for a
signal, size it, and open the trade when the size is positive. -/
def entryStep (cfg : Config) (ltf htf : List Candle) (s : SimState) (c : Candle) : SimState :=
  match s.current_trade with
  | some _ => s
  | none =>
    if ¬ can_trade_today cfg s.strat = true then s
    else
      let ltfSlice := ltf.filter fun k => decide (k.time ≤ c.time)
      let htfSlice := htf.filter fun k => decide (k.time ≤ c.time)
      if ltfSlice.length < 50 then s
      else
        match get_trade_signal cfg s.strat ltfSlice htfSlice c.time with
        | none => s
        | some sig =>
          match calculate_position_size cfg sig.entry_price sig.stop_loss with
          | none => s
          | some ps =>
            if 0 < ps then { s with current_trade := some (mkOpenTrade sig ps c.time) }
            else s

/-- Break-even block of the candle loop: with an open trade and the flag not
yet set, compute the +1R target from the trade's entry and current stop and,
when the candle close reaches or passes it, move the stop-loss to the entry
price and set the flag.  `break_even_price` is not touched. -/
def beStep (s : SimState) (c : Candle) : SimState :=
  match s.current_trade with
  | none => s
  | some trade =>
    if s.break_even_moved = true then s
    else
      match trade.side with
      | Side.long =>
        let r_distance := trade.entry_price - trade.stop_loss
        let break_even_target := trade.entry_price + r_distance
        if break_even_target ≤ c.close then
          { s with current_trade := some { trade with stop_loss := trade.entry_price },
                   break_even_moved := true }
        else s
      | Side.short =>
        let r_distance := trade.stop_loss - trade.entry_price
        let break_even_target := trade.entry_price - r_distance
        if c.close ≤ break_even_target then
          { s with current_trade := some { trade with stop_loss := trade.entry_price },
                   break_even_moved := true }
        else s

/-- One iteration of the candle loop of `simulate_day`.  A `continue` for an
empty HTF prefix skips the whole body; the source's `continue` on a short LTF
prefix occurs inside the no-open-trade branch, where the trailing break-even
block is a no-op, so returning early there is equivalent. -/
def processCandle (cfg : Config) (ltf htf : List Candle) (date : ℕ)
    (s : SimState) (c : Candle) : SimState :=
  if s.stopped = true then s
  else if (htf.filter fun k => decide (k.time ≤ c.time)).isEmpty = true then s
  else
    let s1 := exitStep cfg date s c
    if s1.stopped = true then s1
    else beStep (entryStep cfg ltf htf s1 c) c

/-- Day-end forced close of `simulate_day`: a trade still open after the candle
loop is closed at the last candle's close with reason `session_end`, its record
again reading `sl` from the trade as of now. -/
def finishDay (date : ℕ) (day : List Candle) (s : SimState) : SimState :=
  match s.current_trade, day.getLast? with
  | some trade, some lastC =>
    let pnl := calculate_trade_pnl trade lastC.close ExitReason.session_end
    { s with
      trades := s.trades ++ [mkRecord date trade lastC.time lastC.close ExitReason.session_end pnl],
      strat := { daily_pnl := s.strat.daily_pnl + pnl,
                 daily_trades := s.strat.daily_trades + 1 } }
  | _, _ => s

/-- Simulation of a single calendar day (`simulate_day`): reset the daily
state, fold the candle loop over the day's candles, then force-close any
remaining open trade. -/
def simulate_day (cfg : Config) (ltf htf : List Candle) (date : ℕ)
    (day : List Candle) : SimState :=
  finishDay date day (day.foldl (processCandle cfg ltf htf date) initSimState)

/-!
Concrete test fixtures used by the counterexample/failing-input theorems and by
the witnesses of the universally quantified theorems.
-/

/-- Example configuration: defaults of the spec (`adx_min` 20, take-profit 2R,
a permissive fallback reward/risk floor of 1.5, `force_one_trade` on,
EMA15-pullback fallback). -/
def cfgEx : Config :=
  { risk_usdt := 20, daily_target := 50, daily_max_loss := -30, force_one_trade := true,
    fallback_mode := FallbackMode.EMA15_pullback, adx_min := 20, min_rr_ok := 3 / 2,
    atr_mult_orb := 6 / 5, atr_mult_fallback := 1, tp_multiplier := 2 }

/-- One early higher-timeframe candle, making every HTF prefix nonempty. -/
def htfOne : List Candle :=
  [{ time := 0, op := 100, high := 101, low := 99, close := 100, volume := 100 }]

/-- Candle `i` of the section-8 synthetic ORB day: 5-minute bars from 08:00 to
12:05; the 11:00–12:00 opening range has high 105 (bar 40) and low 95
(bar 42); the final bar, at 12:05, closes at 106 — above the range high — on
volume 200 against a flat 100 elsewhere. -/
def mkBarC1 (i : ℕ) : Candle :=
  { time := 480 + 5 * i
    op := 100
    high := if i = 40 then 105 else if i = 49 then 213 / 2 else 104
    low := if i = 42 then 95 else 96
    close := if i = 49 then 106 else 100
    volume := if i = 49 then 200 else 100 }

/-- The 50-candle synthetic ORB breakout day of spec section 8. -/
def ltfC1 : List Candle := (List.range 50).map mkBarC1

/-- Candle `i` of a synthetic EMA15-pullback day ending at 13:05: a flat run at
100, a bearish bar 18 closing at 99.5, then a bullish engulfing bar 19 opening
at 99.4 and closing at 100.05 — at the EMA15 within the 0.1% tolerance — on
doubled volume. -/
def mkBarC2 (i : ℕ) : Candle :=
  { time := 690 + 5 * i
    op := if i = 19 then 497 / 5 else 100
    high := (if i = 18 then 199 / 2 else if i = 19 then 2001 / 20 else 100) + 1
    low := (if i = 18 then 199 / 2 else if i = 19 then 2001 / 20 else 100) - 1
    close := if i = 18 then 199 / 2 else if i = 19 then 2001 / 20 else 100
    volume := if i = 19 then 200 else 100 }

/-- The 20-candle synthetic EMA15-pullback day, last bar at 13:05. -/
def ltfC2 : List Candle := (List.range 20).map mkBarC2

/-- A long ORB signal at entry 100 with stop 95 (so the +1R level is 105). -/
def sigC3 : TradeIntent :=
  { side := Side.long, strategy := StratTag.orb, entry_price := 100, stop_loss := some 95,
    take_profit := some 110, orb_high := some 99, orb_low := some 96, atr_value := some (25 / 6),
    adx_value := some 25, vwap_value := some 99, rr_value := none, ema15 := none }

/-- The open trade built from `sigC3` at 11:00 with position size 2. -/
def trC3 : OpenTrade := mkOpenTrade sigC3 2 660

/-- Day state holding `trC3` open, break-even not yet applied. -/
def sC3 : SimState :=
  { strat := reset_daily_state, current_trade := some trC3, break_even_moved := false,
    trades := [], stopped := false }

/-- A 14:00 candle closing at 106, beyond the +1R level 105 of `trC3`. -/
def cC3 : Candle :=
  { time := 840, op := 105, high := 213 / 2, low := 104, close := 106, volume := 100 }

/-- The state of `trC3` after the break-even move: stop-loss at entry, but
`break_even_price` still at the entry price 100. -/
def trC3after : OpenTrade :=
  { entry_time := 660, side := Side.long, entry_price := 100, stop_loss := 100,
    take_profit := 110, position_size := 2, strategy := StratTag.orb,
    break_even_price := 100 }

/-- Supporting fact for C1: while the current time is inside the ORB window,
the running opening range already contains the current candle, so a well-formed
last candle (close ≤ high) can never close above the range high — the long ORB
entry path of `check_orb_conditions` can never fire, inside the window (shown
here) or outside it (where the `is_orb_window` gate rejects immediately). -/
theorem orb_long_entry_dead (cfg : Config) (ltf htf : List Candle) (lastC : Candle)
    (hlast : ltf.getLast? = some lastC) (hwf : lastC.close ≤ lastC.high) :
    (check_orb_conditions cfg ltf htf Side.long).1 = false := by
  simp only [check_orb_conditions, hlast]
  by_cases hw : is_orb_window lastC.time = true
  · rw [if_neg (by simp [hw])]
    cases hoh : opening_range_high ltf (dayStart lastC.time + 11 * 60)
        (dayStart lastC.time + 12 * 60) with
    | none =>
      cases hol : opening_range_low ltf (dayStart lastC.time + 11 * 60)
          (dayStart lastC.time + 12 * 60) with
      | none => simp
      | some ol => simp
    | some oh =>
      cases hol : opening_range_low ltf (dayStart lastC.time + 11 * 60)
          (dayStart lastC.time + 12 * 60) with
      | none => simp
      | some ol =>
        simp only
        have hbr : opening_range_breakout ltf oh ol Side.long = false := by
          unfold opening_range_breakout
          rw [hlast]
          simp only
          have h11 : 11 ≤ hourOfTime lastC.time ∧ hourOfTime lastC.time < 12 := by
            unfold is_orb_window at hw
            simpa [Bool.and_eq_true, decide_eq_true_eq] using hw
          have hmem : lastC ∈ ltf.filter fun c =>
              decide (timeOfDay (dayStart lastC.time + 11 * 60) ≤ timeOfDay c.time) &&
                decide (timeOfDay c.time ≤ timeOfDay (dayStart lastC.time + 12 * 60)) := by
            apply List.mem_filter.mpr
            refine ⟨List.mem_of_getLast?_eq_some hlast, ?_⟩
            simp only [Bool.and_eq_true, decide_eq_true_eq]
            unfold timeOfDay dayStart hourOfTime at *
            omega
          have hle : lastC.high ≤ oh := by
            unfold opening_range_high at hoh
            simp only at hoh
            have hmap : lastC.high ∈
                (ltf.filter fun c =>
                  decide (timeOfDay (dayStart lastC.time + 11 * 60) ≤ timeOfDay c.time) &&
                    decide (timeOfDay c.time ≤ timeOfDay (dayStart lastC.time + 12 * 60))).map
                  (fun c => c.high) :=
              List.mem_map_of_mem _ hmem
            exact (List.max?_le_iff (fun a b c => max_le_iff) hoh).mp (le_refl oh) _ hmap
          exact decide_eq_false (not_lt.mpr (hwf.trans hle))
        rw [if_pos (by simp [hbr])]
  · rw [if_pos hw]

/-- Supporting fact for C2: from hour 13 on, `get_trade_signal` returns `none`
for every configuration, day state and data — the entry-window gate closes
before the `clock ≥ 13` fallback branch can be reached. -/
theorem get_trade_signal_none_from_13 (cfg : Config) (st : StratState)
    (ltf htf : List Candle) (t : ℕ) (h : 13 ≤ hourOfTime t) :
    get_trade_signal cfg st ltf htf t = none := by
  unfold get_trade_signal
  by_cases hc : can_trade_today cfg st = true
  · rw [if_neg (by simp [hc])]
    have hw : is_entry_window t = false := by
      have h2 : ¬ hourOfTime t < 13 := by omega
      simp [is_entry_window, h2]
    rw [if_pos (by simp [hw])]
  · rw [if_pos hc]

/-- C1.  On the synthetic section-8 day — opening range high 105 / low 95, last
candle at 12:05 closing at 106 above the range high, volume above its 20-bar
SMA, timestamp inside the entry window — `get_trade_signal` nevertheless
returns no signal, and the day's simulation emits no TradeRecord at all:
`check_orb_conditions` requires the current time to lie *inside* the
11:00–12:00 ORB window (`is_orb_window`), so a post-window breakout candle is
rejected before any confirmation is looked at, contradicting the claimed long
ORB entry at 106. -/
theorem claim_C1_orb_breakout_rejected :
    ltfC1.length = 50 ∧
    opening_range_high ltfC1 660 720 = some 105 ∧
    opening_range_low ltfC1 660 720 = some 95 ∧
    (ltfC1.getLast?).map (fun c => c.close) = some 106 ∧
    volume_confirmation ltfC1 20 = true ∧
    is_entry_window 725 = true ∧
    get_trade_signal cfgEx reset_daily_state ltfC1 htfOne 725 = none ∧
    (simulate_day cfgEx ltfC1 htfOne 0 ltfC1).trades = [] := by
  decide!

/-- C2.  A day state and window satisfying every hypothesis of the claim —
`can_trade_today`, `force_one_trade`, fallback mode `EMA15_pullback`, hour 13,
and the EMA15-pullback conditions holding for the long side — on which
`get_trade_signal` still returns no intent: the entry-window gate (hour < 13)
runs before the hour ≥ 13 fallback branch, so the fallback is unreachable. -/
theorem claim_C2_fallback_unreachable :
    can_trade_today cfgEx reset_daily_state = true ∧
    cfgEx.force_one_trade = true ∧
    cfgEx.fallback_mode = FallbackMode.EMA15_pullback ∧
    13 ≤ hourOfTime 785 ∧
    (check_ema15_pullback_conditions cfgEx ltfC2 htfOne Side.long).isSome = true ∧
    get_trade_signal cfgEx reset_daily_state ltfC2 htfOne 785 = none := by
  decide!

/-- C3.  The break-even trigger price stored in an OpenTrade is the entry price
(100), not the +1R level (105): the backtester seeds `break_even_price` with
the entry and never updates it, so after the break-even move the break-even
exit branch of `should_exit_trade` fires at 101, below the +1R level. -/
theorem claim_C3_break_even_price_is_entry :
    trC3.break_even_price = 100 ∧
    trC3.entry_price + (trC3.entry_price - trC3.stop_loss) = 105 ∧
    (beStep sC3 cC3).current_trade = some trC3after ∧
    (beStep sC3 cC3).break_even_moved = true ∧
    trC3after.break_even_price = 100 ∧
    trC3after.break_even_price < 105 ∧
    should_exit_trade trC3after 101 900 true = some (ExitReason.break_even, 101) ∧
    (101 : ℚ) < 105 := by
  decide!

/-- A fixed synthetic long trade: entry 100, size 2 (spec section 8's PnL
example). -/
def trC7 : OpenTrade :=
  { entry_time := 660, side := Side.long, entry_price := 100, stop_loss := 95,
    take_profit := 110, position_size := 2, strategy := StratTag.orb,
    break_even_price := 100 }

/-- C7.  `calculate_trade_pnl` is `(exit − entry)·size` for a long trade and
`(entry − exit)·size` for a short one, is independent of the exit reason, and
returns 20 on the fixed synthetic trade (entry 100, exit 110, size 2, long). -/
theorem claim_C7_pnl_formula :
    (∀ (trade : OpenTrade) (x : ℚ) (r : ExitReason),
      calculate_trade_pnl trade x r =
        match trade.side with
        | Side.long => (x - trade.entry_price) * trade.position_size
        | Side.short => (trade.entry_price - x) * trade.position_size) ∧
    (∀ (trade : OpenTrade) (x : ℚ) (r1 r2 : ExitReason),
      calculate_trade_pnl trade x r1 = calculate_trade_pnl trade x r2) ∧
    calculate_trade_pnl trC7 110 ExitReason.take_profit = 20 := by
  refine ⟨fun trade x r => rfl, fun trade x r1 r2 => rfl, by decide!⟩

/-- C8.  With a nonzero entry-to-stop distance, `calculate_r_multiple` computes
`(exit−entry)/(entry−stop)` for a long trade and `(entry−exit)/(stop−entry)`
for a short one — a single formula per side, regardless of which of the
source's win/loss branches is taken, so the win/loss branching is dead. -/
theorem claim_C8_r_multiple_formula :
    ∀ entry_price exit_price stop_loss : ℚ, entry_price - stop_loss ≠ 0 →
      calculate_r_multiple entry_price exit_price stop_loss Side.long =
          (exit_price - entry_price) / (entry_price - stop_loss) ∧
        calculate_r_multiple entry_price exit_price stop_loss Side.short =
          (entry_price - exit_price) / (stop_loss - entry_price) := by
  intro e x sl h
  refine ⟨?_, ?_⟩ <;> simp [calculate_r_multiple]

/-- Witness for C8 at entry 100, stop 95: a winning long exit at 110 gives
R = 2 and a losing long exit at 85 gives R = −3, by the one shared formula. -/
theorem claim_C8_r_multiple_witness :
    ((100 : ℚ) - 95 ≠ 0) ∧
      calculate_r_multiple 100 110 95 Side.long = 2 ∧
      calculate_r_multiple 100 85 95 Side.long = -3 := by
  have h : (100 : ℚ) - 95 ≠ 0 := by norm_num
  refine ⟨h, ?_, ?_⟩
  · rw [(claim_C8_r_multiple_formula 100 110 95 h).1]; norm_num
  · rw [(claim_C8_r_multiple_formula 100 85 95 h).1]; norm_num

/-- C9.  `get_trade_signal` does not depend on the higher-timeframe window: the
macro bias is computed and dropped, and neither entry detector reads its HTF
argument, so any two HTF windows produce identical signals. -/
theorem claim_C9_htf_independence :
    ∀ (cfg : Config) (st : StratState) (ltf : List Candle) (t : ℕ)
      (htf1 htf2 : List Candle),
      get_trade_signal cfg st ltf htf1 t = get_trade_signal cfg st ltf htf2 t := by
  intro cfg st ltf t htf1 htf2
  rfl

/-- Ordered exit-condition list of the specification's description of
`should_exit_trade`: stop-loss, then take-profit, then (when active)
break-even, each side mirrored. -/
def shouldExitSpecConds (trade : OpenTrade) (price : ℚ) (beActive : Bool) :
    List (Bool × ExitReason) :=
  match trade.side with
  | Side.long =>
    [(decide (price ≤ trade.stop_loss), ExitReason.stop_loss),
     (decide (trade.take_profit ≤ price), ExitReason.take_profit),
     (beActive && decide (trade.break_even_price ≤ price), ExitReason.break_even)]
  | Side.short =>
    [(decide (trade.stop_loss ≤ price), ExitReason.stop_loss),
     (decide (price ≤ trade.take_profit), ExitReason.take_profit),
     (beActive && decide (price ≤ trade.break_even_price), ExitReason.break_even)]

/-- Specification-side exit decision: forced `session_end` at or after hour 17
regardless of price; otherwise the first matching condition of
`shouldExitSpecConds` wins; no exit when none matches. -/
def shouldExitSpec (trade : OpenTrade) (price : ℚ) (t : ℕ) (beActive : Bool) :
    Option (ExitReason × ℚ) :=
  if 17 ≤ hourOfTime t then some (ExitReason.session_end, price)
  else
    match (shouldExitSpecConds trade price beActive).find? (fun pr => pr.1) with
    | some pr => some (pr.2, price)
    | none => none

/-- C6.  The source's `should_exit_trade` coincides with the specification's
first-match priority description `shouldExitSpec` on every trade, price, time
and break-even flag. -/
theorem claim_C6_exit_priority :
    ∀ (trade : OpenTrade) (price : ℚ) (t : ℕ) (beActive : Bool),
      should_exit_trade trade price t beActive = shouldExitSpec trade price t beActive := by
  intro trade price t beActive
  unfold should_exit_trade shouldExitSpec shouldExitSpecConds
  by_cases h17 : 17 ≤ hourOfTime t
  · simp [h17]
  · cases hside : trade.side <;> simp only [h17, if_false, List.find?]
    · by_cases h1 : price ≤ trade.stop_loss
      · simp [h1]
      · by_cases h2 : trade.take_profit ≤ price
        · simp [h1, h2]
        · by_cases hb : beActive = true
          · by_cases h3 : trade.break_even_price ≤ price
            · simp [h1, h2, hb, h3]
            · simp [h1, h2, hb, h3]
          · simp [h1, h2, hb, Bool.eq_false_iff.mpr hb]
    · by_cases h1 : trade.stop_loss ≤ price
      · simp [h1]
      · by_cases h2 : price ≤ trade.take_profit
        · simp [h1, h2]
        · by_cases hb : beActive = true
          · by_cases h3 : price ≤ trade.break_even_price
            · simp [h1, h2, hb, h3]
            · simp [h1, h2, hb, h3]
          · simp [h1, h2, hb, Bool.eq_false_iff.mpr hb]

/-!
Structural lemmas about the simulation step, shared by the invariant claims.
-/

/-- After a close the daily counter is no longer below the hard-coded cap of
one, so `can_trade_today` is false. -/
theorem can_trade_today_succ (cfg : Config) (p : ℚ) (n : ℕ) :
    can_trade_today cfg { daily_pnl := p, daily_trades := n + 1 } = false := by
  have h : decide (n + 1 < 1) = false := decide_eq_false (by omega)
  simp [can_trade_today, max_daily_trades, h]

/-- A state that passes `can_trade_today` has opened no trade today. -/
theorem can_trade_today_zero (cfg : Config) (st : StratState)
    (h : can_trade_today cfg st = true) : st.daily_trades = 0 := by
  unfold can_trade_today at h
  simp only [Bool.and_eq_true, decide_eq_true_eq, max_daily_trades] at h
  omega

/-- With no open trade the exit block does nothing. -/
theorem exitStep_of_none (cfg : Config) (date : ℕ) (s : SimState) (c : Candle)
    (h : s.current_trade = none) : exitStep cfg date s c = s := by
  simp [exitStep, h]

/-- With an open trade and no exit decision the exit block does nothing. -/
theorem exitStep_of_noexit (cfg : Config) (date : ℕ) (s : SimState) (c : Candle)
    (trade : OpenTrade) (h : s.current_trade = some trade)
    (h2 : should_exit_trade trade c.close c.time s.break_even_moved = none) :
    exitStep cfg date s c = s := by
  simp [exitStep, h, h2]

/-- An exit decision closes the trade: the record (whose `sl` is the trade's
stop-loss as of now) is appended, the counters advance, the slot and flag are
cleared, and — the cap being 1 — the loop is always left (`stopped`). -/
theorem exitStep_of_exit (cfg : Config) (date : ℕ) (s : SimState) (c : Candle)
    (trade : OpenTrade) (r : ExitReason) (p : ℚ) (h : s.current_trade = some trade)
    (h2 : should_exit_trade trade c.close c.time s.break_even_moved = some (r, p)) :
    exitStep cfg date s c =
      { strat := { daily_pnl := s.strat.daily_pnl + calculate_trade_pnl trade p r,
                   daily_trades := s.strat.daily_trades + 1 },
        current_trade := none, break_even_moved := false,
        trades := s.trades ++ [mkRecord date trade c.time p r (calculate_trade_pnl trade p r)],
        stopped := true } := by
  simp [exitStep, h, h2, can_trade_today_succ]

/-- With an open trade the entry block does nothing. -/
theorem entryStep_of_some (cfg : Config) (ltf htf : List Candle) (s : SimState) (c : Candle)
    (trade : OpenTrade) (h : s.current_trade = some trade) :
    entryStep cfg ltf htf s c = s := by
  simp [entryStep, h]

/-- The entry block can only fill the open-trade slot: counters, flag, ledger
and stop marker are untouched. -/
theorem entryStep_fields (cfg : Config) (ltf htf : List Candle) (s : SimState) (c : Candle) :
    (entryStep cfg ltf htf s c).strat = s.strat ∧
    (entryStep cfg ltf htf s c).break_even_moved = s.break_even_moved ∧
    (entryStep cfg ltf htf s c).trades = s.trades ∧
    (entryStep cfg ltf htf s c).stopped = s.stopped := by
  cases h : s.current_trade with
  | some trade => simp [entryStep, h]
  | none =>
    simp only [entryStep, h]
    repeat' split
    all_goals simp

/-- A trade opened by the entry block required `can_trade_today`. -/
theorem entryStep_open_can_trade (cfg : Config) (ltf htf : List Candle) (s : SimState)
    (c : Candle) (h : s.current_trade = none)
    (h2 : (entryStep cfg ltf htf s c).current_trade.isSome = true) :
    can_trade_today cfg s.strat = true := by
  by_cases hc : can_trade_today cfg s.strat = true
  · exact hc
  · rw [entryStep, h] at h2
    simp only [hc] at h2
    simp [h] at h2

/-- The break-even block does nothing without an open trade. -/
theorem beStep_of_none (s : SimState) (c : Candle) (h : s.current_trade = none) :
    beStep s c = s := by
  simp [beStep, h]

/-- The break-even block does nothing once the flag is set. -/
theorem beStep_of_moved (s : SimState) (c : Candle) (trade : OpenTrade)
    (h : s.current_trade = some trade) (hb : s.break_even_moved = true) :
    beStep s c = s := by
  simp [beStep, h, hb]

/-- The +1R break-even trigger condition of the break-even block in
`simulate_day`: the candle close reaches or passes
`entry + (entry - stop)` (long) resp. `entry - (stop - entry)` (short). -/
def beTriggered (trade : OpenTrade) (c : Candle) : Bool :=
  match trade.side with
  | Side.long =>
    decide (trade.entry_price + (trade.entry_price - trade.stop_loss) ≤ c.close)
  | Side.short =>
    decide (c.close ≤ trade.entry_price - (trade.stop_loss - trade.entry_price))

/-- With an open trade and the flag clear, the break-even block either fires —
moving the stop-loss to the entry price and setting the flag, nothing else —
or leaves the state unchanged, according to `beTriggered`. -/
theorem beStep_char (s : SimState) (c : Candle) (trade : OpenTrade)
    (h : s.current_trade = some trade) (hb : s.break_even_moved = false) :
    (beTriggered trade c = true ∧
      beStep s c =
        { s with current_trade := some { trade with stop_loss := trade.entry_price },
                 break_even_moved := true }) ∨
    (beTriggered trade c = false ∧ beStep s c = s) := by
  unfold beStep beTriggered
  rw [h, hb]
  cases hs : trade.side with
  | long =>
    by_cases hc : trade.entry_price + (trade.entry_price - trade.stop_loss) ≤ c.close
    · left; simp [hs, hc]
    · right; simp [hs, hc]
  | short =>
    by_cases hc : c.close ≤ trade.entry_price - (trade.stop_loss - trade.entry_price)
    · left; simp [hs, hc]
    · right; simp [hs, hc]

/-- The break-even block never touches counters, ledger or stop marker. -/
theorem beStep_fields (s : SimState) (c : Candle) :
    (beStep s c).strat = s.strat ∧ (beStep s c).trades = s.trades ∧
    (beStep s c).stopped = s.stopped := by
  cases h : s.current_trade with
  | none => simp [beStep, h]
  | some trade =>
    by_cases hb : s.break_even_moved = true
    · simp [beStep, h, hb]
    · rcases beStep_char s c trade h (Bool.eq_false_iff.mpr hb) with ⟨_, heq⟩ | ⟨_, heq⟩ <;>
        simp [heq]

/-- The break-even block preserves an open-trade slot (it never opens or
closes a trade). -/
theorem beStep_isSome (s : SimState) (c : Candle) :
    (beStep s c).current_trade.isSome = s.current_trade.isSome := by
  cases h : s.current_trade with
  | none => simp [beStep, h]
  | some trade =>
    by_cases hb : s.break_even_moved = true
    · simp [beStep, h, hb]
    · rcases beStep_char s c trade h (Bool.eq_false_iff.mpr hb) with ⟨_, heq⟩ | ⟨_, heq⟩ <;>
        simp [heq, h]

/-- Break-even invariant: once the flag is set a trade is open and its
stop-loss sits exactly at its entry price. -/
def BeInv (s : SimState) : Prop :=
  s.break_even_moved = true →
    ∃ trade, s.current_trade = some trade ∧ trade.stop_loss = trade.entry_price

/-- The break-even block preserves `BeInv`: it sets the flag only in the very
step that moves the stop-loss to the entry price. -/
theorem beStep_inv (s : SimState) (c : Candle) (h : BeInv s) : BeInv (beStep s c) := by
  cases htr : s.current_trade with
  | none => rw [beStep_of_none s c htr]; exact h
  | some trade =>
    by_cases hb : s.break_even_moved = true
    · rw [beStep_of_moved s c trade htr hb]; exact h
    · rcases beStep_char s c trade htr (Bool.eq_false_iff.mpr hb) with ⟨_, heq⟩ | ⟨_, heq⟩
      · rw [heq]
        intro _
        exact ⟨{ trade with stop_loss := trade.entry_price }, rfl, rfl⟩
      · rw [heq]; exact h

/-- C4.  One candle step preserves the break-even invariant, and an open
trade's stop-loss changes at most once across the step: the trade either
survives untouched or — only when the flag was clear and the candle close
reached the +1R level — survives with its stop-loss set to exactly the entry
price and the flag raised.  Together with the invariant (flag set → stop equals
entry), the stop never moves again and never moves away from the entry. -/
theorem claim_C4_break_even_stop (cfg : Config) (ltf htf : List Candle) (date : ℕ)
    (s : SimState) (c : Candle) (hInv : BeInv s) :
    BeInv (processCandle cfg ltf htf date s c) ∧
    ∀ trade trade2, s.current_trade = some trade →
      (processCandle cfg ltf htf date s c).current_trade = some trade2 →
      trade2 = trade ∨
        (trade2 = { trade with stop_loss := trade.entry_price } ∧
          (processCandle cfg ltf htf date s c).break_even_moved = true ∧
          s.break_even_moved = false ∧ beTriggered trade c = true) := by
  unfold processCandle
  by_cases h1 : s.stopped = true
  · rw [if_pos h1]
    exact ⟨hInv, fun tr tr2 hA hB => Or.inl (Option.some.inj (hA.symm.trans hB)).symm⟩
  · rw [if_neg h1]
    by_cases h2 : (htf.filter fun k => decide (k.time ≤ c.time)).isEmpty = true
    · rw [if_pos h2]
      exact ⟨hInv, fun tr tr2 hA hB => Or.inl (Option.some.inj (hA.symm.trans hB)).symm⟩
    · rw [if_neg h2]
      cases htr : s.current_trade with
      | none =>
        simp only [exitStep_of_none cfg date s c htr]
        rw [if_neg h1]
        refine ⟨?_, ?_⟩
        · apply beStep_inv
          intro hbe
          rw [(entryStep_fields cfg ltf htf s c).2.1] at hbe
          rcases hInv hbe with ⟨tr0, htr0, _⟩
          simp [htr] at htr0
        · intro tr tr2 hA _
          simp at hA
      | some trade =>
        cases hex : should_exit_trade trade c.close c.time s.break_even_moved with
        | some rp =>
          obtain ⟨r, p⟩ := rp
          simp only [exitStep_of_exit cfg date s c trade r p htr hex]
          simp only [if_true]
          refine ⟨?_, ?_⟩
          · intro hbe; simp at hbe
          · intro tr tr2 _ hB; simp at hB
        | none =>
          simp only [exitStep_of_noexit cfg date s c trade htr hex]
          rw [if_neg h1, entryStep_of_some cfg ltf htf s c trade htr]
          refine ⟨beStep_inv s c hInv, ?_⟩
          intro tr tr2 hA hB
          have htreq : trade = tr := Option.some.inj hA
          by_cases hb : s.break_even_moved = true
          · rw [beStep_of_moved s c trade htr hb] at hB
            exact Or.inl (htreq ▸ (Option.some.inj (htr.symm.trans hB)).symm)
          · have hb2 : s.break_even_moved = false := Bool.eq_false_iff.mpr hb
            rcases beStep_char s c trade htr hb2 with ⟨htrig, heq⟩ | ⟨_, heq⟩
            · rw [heq] at hB ⊢
              simp only at hB
              refine Or.inr ⟨?_, by simp, hb2, htreq ▸ htrig⟩
              exact htreq ▸ (Option.some.inj hB).symm
            · rw [heq] at hB
              exact Or.inl (htreq ▸ (Option.some.inj (htr.symm.trans hB)).symm)

/-- Witness state for C4: a long trade at entry 100 / stop 95, flag clear. -/
def sW4 : SimState :=
  { strat := reset_daily_state,
    current_trade := some
      { entry_time := 660, side := Side.long, entry_price := 100, stop_loss := 95,
        take_profit := 110, position_size := 2, strategy := StratTag.orb,
        break_even_price := 100 },
    break_even_moved := false, trades := [], stopped := false }

/-- Witness candle for C4: a 14:00 close at 106, past the +1R level 105. -/
def cW4 : Candle :=
  { time := 840, op := 105, high := 213 / 2, low := 104, close := 106, volume := 100 }

/-- Witness for C4 at the concrete state `sW4` and candle `cW4`. -/
theorem claim_C4_break_even_stop_witness :
    BeInv (processCandle cfgEx [] htfOne 0 sW4 cW4) := by
  have hInv : BeInv sW4 := by
    intro hbe
    exact absurd hbe (by decide!)
  exact (claim_C4_break_even_stop cfgEx [] htfOne 0 sW4 cW4 hInv).1

/-- Daily-cap invariant: the ledger length matches the daily counter, an open
trade implies no trade has been counted yet, and the counter never exceeds 1. -/
def TradesInv (s : SimState) : Prop :=
  s.trades.length = s.strat.daily_trades ∧
  (s.current_trade.isSome = true → s.strat.daily_trades = 0) ∧
  s.strat.daily_trades ≤ 1

/-- One candle step preserves the daily-cap invariant. -/
theorem processCandle_trades_inv (cfg : Config) (ltf htf : List Candle) (date : ℕ)
    (s : SimState) (c : Candle) (h : TradesInv s) :
    TradesInv (processCandle cfg ltf htf date s c) := by
  obtain ⟨hlen, hopen, hcap⟩ := h
  unfold processCandle
  by_cases h1 : s.stopped = true
  · rw [if_pos h1]; exact ⟨hlen, hopen, hcap⟩
  · rw [if_neg h1]
    by_cases h2 : (htf.filter fun k => decide (k.time ≤ c.time)).isEmpty = true
    · rw [if_pos h2]; exact ⟨hlen, hopen, hcap⟩
    · rw [if_neg h2]
      cases htr : s.current_trade with
      | none =>
        simp only [exitStep_of_none cfg date s c htr]
        rw [if_neg h1]
        obtain ⟨hstrat, _, htrades, _⟩ := entryStep_fields cfg ltf htf s c
        obtain ⟨hstrat2, htrades2, _⟩ := beStep_fields (entryStep cfg ltf htf s c) c
        refine ⟨by rw [htrades2, htrades, hstrat2, hstrat]; exact hlen, ?_,
          by rw [hstrat2, hstrat]; exact hcap⟩
        intro hsome
        rw [hstrat2, hstrat]
        rw [beStep_isSome (entryStep cfg ltf htf s c) c] at hsome
        have hct := entryStep_open_can_trade cfg ltf htf s c htr hsome
        exact can_trade_today_zero cfg s.strat hct
      | some trade =>
        cases hex : should_exit_trade trade c.close c.time s.break_even_moved with
        | some rp =>
          obtain ⟨r, p⟩ := rp
          simp only [exitStep_of_exit cfg date s c trade r p htr hex]
          simp only [if_true]
          have hzero : s.strat.daily_trades = 0 := hopen (by rw [htr]; rfl)
          refine ⟨?_, fun hsome => by simp at hsome, ?_⟩
          · simp [hlen]
          · simp [hzero]
        | none =>
          simp only [exitStep_of_noexit cfg date s c trade htr hex]
          rw [if_neg h1, entryStep_of_some cfg ltf htf s c trade htr]
          obtain ⟨hstrat2, htrades2, _⟩ := beStep_fields s c
          refine ⟨by rw [htrades2, hstrat2]; exact hlen, ?_, by rw [hstrat2]; exact hcap⟩
          intro hsome
          rw [hstrat2]
          exact hopen (by rw [htr]; rfl)

/-- The candle loop preserves the daily-cap invariant. -/
theorem foldl_trades_inv (cfg : Config) (ltf htf : List Candle) (date : ℕ) :
    ∀ (day : List Candle) (s : SimState), TradesInv s →
      TradesInv (day.foldl (processCandle cfg ltf htf date) s) := by
  intro day
  induction day with
  | nil => exact fun s h => h
  | cons c rest ih =>
    intro s h
    exact ih _ (processCandle_trades_inv cfg ltf htf date s c h)

/-- C5.  With the hard-coded daily cap of one, a day's simulation emits at most
one TradeRecord, whatever the candle data: after the first close the
`can_trade_today` gate (and the loop break) prevents any further entry. -/
theorem claim_C5_at_most_one_record :
    max_daily_trades = 1 ∧
    ∀ (cfg : Config) (ltf htf : List Candle) (date : ℕ) (day : List Candle),
      (simulate_day cfg ltf htf date day).trades.length ≤ 1 := by
  refine ⟨rfl, ?_⟩
  intro cfg ltf htf date day
  have h0 : TradesInv initSimState := ⟨rfl, by intro h; simp [initSimState] at h, by decide⟩
  have hF := foldl_trades_inv cfg ltf htf date day initSimState h0
  obtain ⟨hlen, hopen, hcap⟩ := hF
  unfold simulate_day finishDay
  cases htr : (day.foldl (processCandle cfg ltf htf date) initSimState).current_trade with
  | none =>
    cases hd : day.getLast? with
    | none => simpa [hlen] using hcap
    | some lastC => simpa [hlen] using hcap
  | some trade =>
    have hzero := hopen (by rw [htr]; rfl)
    cases hd : day.getLast? with
    | none => simpa [hlen] using hcap
    | some lastC => simp [hlen, hzero]

/-- C10.  A TradeRecord emitted while the break-even flag is set carries the
stop-loss as of exit time: with the break-even invariant its `sl` field equals
the trade's entry price, on the in-loop exit path and on the day-end forced
close alike. -/
theorem claim_C10_record_sl (cfg : Config) (ltf htf : List Candle) (date : ℕ)
    (day : List Candle) (s : SimState) (c : Candle) (trade : OpenTrade)
    (hInv : BeInv s) (hbe : s.break_even_moved = true)
    (htr : s.current_trade = some trade) :
    (∀ r, (processCandle cfg ltf htf date s c).trades = s.trades ++ [r] →
      r.sl = trade.entry_price) ∧
    (∀ r, (finishDay date day s).trades = s.trades ++ [r] → r.sl = trade.entry_price) := by
  rcases hInv hbe with ⟨tr0, htr0, hstop⟩
  have htr0eq : tr0 = trade := Option.some.inj (htr0.symm.trans htr)
  rw [htr0eq] at hstop
  constructor
  · intro r hr
    unfold processCandle at hr
    by_cases h1 : s.stopped = true
    · rw [if_pos h1] at hr
      exact absurd (congrArg List.length hr) (by simp)
    · rw [if_neg h1] at hr
      by_cases h2 : (htf.filter fun k => decide (k.time ≤ c.time)).isEmpty = true
      · rw [if_pos h2] at hr
        exact absurd (congrArg List.length hr) (by simp)
      · rw [if_neg h2] at hr
        cases hex : should_exit_trade trade c.close c.time s.break_even_moved with
        | some rp =>
          obtain ⟨er, p⟩ := rp
          simp only [exitStep_of_exit cfg date s c trade er p htr hex] at hr
          simp only [if_true] at hr
          have hrec : mkRecord date trade c.time p er (calculate_trade_pnl trade p er) = r :=
            by simpa using List.append_cancel_left hr
          rw [← hrec]
          exact hstop
        | none =>
          simp only [exitStep_of_noexit cfg date s c trade htr hex] at hr
          rw [if_neg h1, entryStep_of_some cfg ltf htf s c trade htr] at hr
          rw [(beStep_fields s c).2.1] at hr
          exact absurd (congrArg List.length hr) (by simp)
  · intro r hr
    unfold finishDay at hr
    cases hd : day.getLast? with
    | some lastC =>
      rw [htr, hd] at hr
      simp only at hr
      have hrec : mkRecord date trade lastC.time lastC.close ExitReason.session_end
          (calculate_trade_pnl trade lastC.close ExitReason.session_end) = r :=
        by simpa using List.append_cancel_left hr
      rw [← hrec]
      exact hstop
    | none =>
      rw [htr, hd] at hr
      simp only at hr
      exact absurd (congrArg List.length hr) (by simp)

/-- Witness trade for C10: break-even already applied (stop at entry 100). -/
def trW10 : OpenTrade :=
  { entry_time := 660, side := Side.long, entry_price := 100, stop_loss := 100,
    take_profit := 110, position_size := 2, strategy := StratTag.orb,
    break_even_price := 100 }

/-- Witness state for C10: `trW10` open with the break-even flag set. -/
def sW10 : SimState :=
  { strat := reset_daily_state, current_trade := some trW10, break_even_moved := true,
    trades := [], stopped := false }

/-- Witness candle for C10, at 17:00, forcing a `session_end` exit at 101. -/
def cW10 : Candle :=
  { time := 1020, op := 101, high := 102, low := 100, close := 101, volume := 100 }

/-- Witness record for C10: the session-end close of `trW10` at 101. -/
def rW10 : TradeRecord :=
  mkRecord 0 trW10 1020 101 ExitReason.session_end
    (calculate_trade_pnl trW10 101 ExitReason.session_end)

/-- Witness for C10: at 17:00 the step and the day-end close each emit exactly
the record `rW10`, whose `sl` is the entry price 100. -/
theorem claim_C10_record_sl_witness :
    (processCandle cfgEx [] htfOne 0 sW10 cW10).trades = sW10.trades ++ [rW10] ∧
    (finishDay 0 [cW10] sW10).trades = sW10.trades ++ [rW10] ∧
    rW10.sl = 100 := by
  have h1 : (processCandle cfgEx [] htfOne 0 sW10 cW10).trades = sW10.trades ++ [rW10] := by
    decide!
  have h2 : (finishDay 0 [cW10] sW10).trades = sW10.trades ++ [rW10] := by
    decide!
  have hInv : BeInv sW10 := fun _ => ⟨trW10, rfl, rfl⟩
  obtain ⟨ha, hb⟩ :=
    claim_C10_record_sl cfgEx [] htfOne 0 [cW10] sW10 cW10 trW10 hInv rfl rfl
  exact ⟨h1, h2, ha rW10 h1⟩

end Trade4U
